import Mathlib

/-!
Shallow embedding of `src/api/src/types/representation.rs`: the external
representation types, the `From` conversions from the domain model, and the
field-level serialization shape induced by the serde attributes in that file.

The domain module `crate::types` itself is not under `src/` (only this mapper
and its tests reference it), so the domain entities are modelled from the
spec, as marked on each such definition.

Modelling conventions:
- timestamps (`DateTime<Utc>`) are absolute instants modelled as integers,
  compared as the instants they denote;
- a `HashSet<Comment>` comment store is modelled by the sequence in which the
  set's elements are iterated (`into_iter` order); set equality of two stores
  is permutation of their iteration sequences;
- itertools' `sorted_by_key` is a stable sort ascending by the key; it is
  modelled by the stable insertion sort `List.insertionSort`.
-/

/-- Modelled from the spec: a timezone-aware timestamp (`DateTime<Utc>`),
compared and sorted as an absolute instant; modelled as an integer. -/
abbrev Timestamp := Int

/-- Modelled from the spec: a wall-clock time of day (`NaiveTime`), with no
date component; modelled as an integer count within the day. -/
abbrev TimeOfDay := Nat

/-- Modelled from the spec: `types::GateState`, a two-valued state tag. -/
inductive types.GateState where
  | Open
  | Closed
deriving DecidableEq, Repr

/-- Modelled from the spec: `types::GateKey`, the immutable
(group, service, environment) identity of a gate. -/
structure types.GateKey where
  group : String
  service : String
  environment : String
deriving DecidableEq, Repr

/-- Modelled from the spec: `types::Comment`, an immutable audit note. -/
structure types.Comment where
  id : String
  message : String
  created : Timestamp
deriving DecidableEq, Repr

/-- Modelled from the spec: `types::ActiveHours`, a daily time window. The
source field `end` is a reserved word here, so it is written `end_`. -/
structure types.ActiveHours where
  start : TimeOfDay
  end_ : TimeOfDay
deriving DecidableEq, Repr

/-- Modelled from the spec: `types::ActiveHoursPerWeek`, seven independent
optional daily windows. -/
structure types.ActiveHoursPerWeek where
  monday : Option types.ActiveHours
  tuesday : Option types.ActiveHours
  wednesday : Option types.ActiveHours
  thursday : Option types.ActiveHours
  friday : Option types.ActiveHours
  saturday : Option types.ActiveHours
  sunday : Option types.ActiveHours
deriving DecidableEq, Repr

/-- Modelled from the spec: `types::Gate`, the aggregate root. The
`comments` field models the `HashSet<Comment>` store by its iteration
sequence; the set invariant is that this sequence has no duplicates. -/
structure types.Gate where
  key : types.GateKey
  state : types.GateState
  comments : List types.Comment
  last_updated : Timestamp
  display_order : Option Nat
deriving DecidableEq, Repr

/-- Modelled from the spec: adding a `Comment` to a `Gate`'s comment store is
a `HashSet` set-insert — a no-op when a structurally identical comment (same
id, message and created) is already present. The insertion operation itself
is not under `src/`. -/
def types.Gate.insertComment (g : types.Gate) (c : types.Comment) : types.Gate :=
  if c ∈ g.comments then g else { g with comments := g.comments ++ [c] }

/-- Structural equality of domain gates: Rust's derived `PartialEq` on
`types::Gate`, where equality of the `HashSet` comment store is order-blind
set equality, modelled as permutation of the iteration sequences. -/
def types.Gate.SetEq (g1 g2 : types.Gate) : Prop :=
  g1.key = g2.key ∧ g1.state = g2.state ∧ g1.comments.Perm g2.comments ∧
    g1.last_updated = g2.last_updated ∧ g1.display_order = g2.display_order

/-- Representation `Comment` (representation.rs lines 49-54). -/
structure types.representation.Comment where
  id : String
  message : String
  created : Timestamp
deriving DecidableEq, Repr

/-- Representation `Gate` (representation.rs lines 33-43). -/
structure types.representation.Gate where
  group : String
  service : String
  environment : String
  state : types.GateState
  comments : List types.representation.Comment
  last_updated : Timestamp
  display_order : Option Nat
deriving DecidableEq, Repr

/-- Representation `GateStateRep` (representation.rs lines 44-47). -/
structure types.representation.GateStateRep where
  state : types.GateState
deriving DecidableEq, Repr

/-- Representation `ActiveHours` (representation.rs lines 62-66). -/
structure types.representation.ActiveHours where
  start : TimeOfDay
  end_ : TimeOfDay
deriving DecidableEq, Repr

/-- Representation `ActiveHoursPerWeek` (representation.rs lines 77-93). -/
structure types.representation.ActiveHoursPerWeek where
  monday : Option types.representation.ActiveHours
  tuesday : Option types.representation.ActiveHours
  wednesday : Option types.representation.ActiveHours
  thursday : Option types.representation.ActiveHours
  friday : Option types.representation.ActiveHours
  saturday : Option types.representation.ActiveHours
  sunday : Option types.representation.ActiveHours
deriving DecidableEq, Repr

/-- Representation `Config` (representation.rs lines 56-60). -/
structure types.representation.Config where
  system_time : Timestamp
  active_hours_per_week : types.representation.ActiveHoursPerWeek
deriving DecidableEq, Repr

/-- Embeds `impl From<types::Comment> for Comment` (lines 133-141). -/
def types.representation.Comment.fromDomain (value : types.Comment) :
    types.representation.Comment :=
  { id := value.id, message := value.message, created := value.created }

/-- The comparison used by `sorted_by_key(|comment| comment.created)`:
ascending by the `created` instant. -/
def commentOrd (a b : types.representation.Comment) : Prop :=
  a.created ≤ b.created

instance : DecidableRel commentOrd :=
  fun a b => Int.decLe a.created b.created

instance : IsTotal types.representation.Comment commentOrd :=
  ⟨fun a b => Int.le_total a.created b.created⟩

instance : IsTrans types.representation.Comment commentOrd :=
  ⟨fun _ _ _ h1 h2 => Int.le_trans h1 h2⟩

/-- Embeds `impl From<types::Gate> for Gate` (lines 109-126): copies the key
fields, state, `last_updated` and `display_order`, and emits the comments
mapped into representation comments and stable-sorted ascending by
`created`. -/
def types.representation.Gate.fromDomain (value : types.Gate) :
    types.representation.Gate :=
  { group := value.key.group
    service := value.key.service
    environment := value.key.environment
    state := value.state
    comments :=
      (value.comments.map types.representation.Comment.fromDomain).insertionSort commentOrd
    last_updated := value.last_updated
    display_order := value.display_order }

/-- Embeds `impl From<types::Gate> for GateStateRep` (lines 127-131). -/
def types.representation.GateStateRep.fromDomain (value : types.Gate) :
    types.representation.GateStateRep :=
  { state := value.state }

/-- Embeds `impl From<types::ActiveHours> for ActiveHours` (lines 68-75). -/
def types.representation.ActiveHours.fromDomain (value : types.ActiveHours) :
    types.representation.ActiveHours :=
  { start := value.start, end_ := value.end_ }

/-- Embeds `impl From<types::ActiveHoursPerWeek> for ActiveHoursPerWeek`
(lines 95-107): each day is `value.<day>.map(Into::into)`. -/
def types.representation.ActiveHoursPerWeek.fromDomain
    (value : types.ActiveHoursPerWeek) : types.representation.ActiveHoursPerWeek :=
  { monday := value.monday.map types.representation.ActiveHours.fromDomain
    tuesday := value.tuesday.map types.representation.ActiveHours.fromDomain
    wednesday := value.wednesday.map types.representation.ActiveHours.fromDomain
    thursday := value.thursday.map types.representation.ActiveHours.fromDomain
    friday := value.friday.map types.representation.ActiveHours.fromDomain
    saturday := value.saturday.map types.representation.ActiveHours.fromDomain
    sunday := value.sunday.map types.representation.ActiveHours.fromDomain }

/-- Minimal JSON value model for the serialized wire shape. -/
inductive Json where
  | str (s : String)
  | num (n : Int)
  | arr (elems : List Json)
  | obj (fields : List (String × Json))

/-- Emit one optional object field: nothing when the value is absent, the
single key/value pair when present. This is the meaning of serde's
`skip_serializing_if = "Option::is_none"` attribute. -/
def optField (name : String) (o : Option Json) : List (String × Json) :=
  match o with
  | none => []
  | some j => [(name, j)]

/-- Modelled from the spec: `GateState` is an opaque tag transported
end-to-end; its serialized form is an opaque string token. -/
def types.GateState.toJson : types.GateState → Json
  | .Open => Json.str ("open")
  | .Closed => Json.str ("closed")

/-- Embeds the serde `Serialize` derive on the representation `Comment`:
all three fields, in declaration order. -/
def types.representation.Comment.toJson (c : types.representation.Comment) : Json :=
  Json.obj [("id", Json.str (c.id)), ("message", Json.str (c.message)),
    ("created", Json.num (c.created))]

/-- Object fields of the serde `Serialize` derive on the representation
`Gate`: fields in declaration order, with `display_order` skipped when
`None` (`skip_serializing_if = "Option::is_none"`, lines 41-42). -/
def types.representation.Gate.fields (g : types.representation.Gate) :
    List (String × Json) :=
  [("group", Json.str (g.group)), ("service", Json.str (g.service)),
    ("environment", Json.str (g.environment)), ("state", g.state.toJson),
    ("comments", Json.arr (g.comments.map types.representation.Comment.toJson)),
    ("last_updated", Json.num (g.last_updated))]
  ++ optField ("display_order") (g.display_order.map fun n => Json.num (n : Int))

/-- Serialized shape of the representation `Gate`. -/
def types.representation.Gate.toJson (g : types.representation.Gate) : Json :=
  Json.obj (types.representation.Gate.fields g)

/-- Embeds the serde `Serialize` derive on the representation
`ActiveHours`: both fields, in declaration order. -/
def types.representation.ActiveHours.toJson
    (h : types.representation.ActiveHours) : Json :=
  Json.obj [("start", Json.num (h.start : Int)), ("end", Json.num (h.end_ : Int))]

/-- Object fields of the serde `Serialize` derive on the representation
`ActiveHoursPerWeek`: every day carries `skip_serializing_if =
"Option::is_none"` (lines 77-93), so an absent day contributes no field. -/
def types.representation.ActiveHoursPerWeek.fields
    (w : types.representation.ActiveHoursPerWeek) : List (String × Json) :=
  optField ("monday") (w.monday.map types.representation.ActiveHours.toJson)
  ++ optField ("tuesday") (w.tuesday.map types.representation.ActiveHours.toJson)
  ++ optField ("wednesday") (w.wednesday.map types.representation.ActiveHours.toJson)
  ++ optField ("thursday") (w.thursday.map types.representation.ActiveHours.toJson)
  ++ optField ("friday") (w.friday.map types.representation.ActiveHours.toJson)
  ++ optField ("saturday") (w.saturday.map types.representation.ActiveHours.toJson)
  ++ optField ("sunday") (w.sunday.map types.representation.ActiveHours.toJson)

/-- Serialized shape of the representation `ActiveHoursPerWeek`. -/
def types.representation.ActiveHoursPerWeek.toJson
    (w : types.representation.ActiveHoursPerWeek) : Json :=
  Json.obj (types.representation.ActiveHoursPerWeek.fields w)

/-- The seven weekdays, used to quantify uniformly over the seven optional
slots of `ActiveHoursPerWeek`. -/
inductive Weekday where
  | monday
  | tuesday
  | wednesday
  | thursday
  | friday
  | saturday
  | sunday
deriving DecidableEq, Repr

/-- Wire name of each weekday field. -/
def Weekday.name : Weekday → String
  | .monday => "monday"
  | .tuesday => "tuesday"
  | .wednesday => "wednesday"
  | .thursday => "thursday"
  | .friday => "friday"
  | .saturday => "saturday"
  | .sunday => "sunday"

/-- Day slot of a domain `ActiveHoursPerWeek`. -/
def types.ActiveHoursPerWeek.day (w : types.ActiveHoursPerWeek) :
    Weekday → Option types.ActiveHours
  | .monday => w.monday
  | .tuesday => w.tuesday
  | .wednesday => w.wednesday
  | .thursday => w.thursday
  | .friday => w.friday
  | .saturday => w.saturday
  | .sunday => w.sunday

/-- Day slot of a representation `ActiveHoursPerWeek`. -/
def types.representation.ActiveHoursPerWeek.day
    (w : types.representation.ActiveHoursPerWeek) :
    Weekday → Option types.representation.ActiveHours
  | .monday => w.monday
  | .tuesday => w.tuesday
  | .wednesday => w.wednesday
  | .thursday => w.thursday
  | .friday => w.friday
  | .saturday => w.saturday
  | .sunday => w.sunday

/-- Concrete comment with a tied `created` instant (for C2). -/
def tiedC1 : types.Comment :=
  { id := "a", message := "m1", created := 0 }

/-- Concrete comment with the same `created` instant as `tiedC1` (for C2). -/
def tiedC2 : types.Comment :=
  { id := "b", message := "m2", created := 0 }

/-- Gate whose comment store iterates `tiedC1` before `tiedC2` (for C2). -/
def tiedGate1 : types.Gate :=
  { key := { group := "g", service := "s", environment := "e" }
    state := types.GateState.Open
    comments := [tiedC1, tiedC2]
    last_updated := 5
    display_order := none }

/-- The same comment set as `tiedGate1`, iterated the other way (for C2). -/
def tiedGate2 : types.Gate :=
  { key := { group := "g", service := "s", environment := "e" }
    state := types.GateState.Open
    comments := [tiedC2, tiedC1]
    last_updated := 5
    display_order := none }

/-- Concrete comment created at instant 1 (for C2's witness). -/
def distinctC1 : types.Comment :=
  { id := "a", message := "m1", created := 1 }

/-- Concrete comment created at instant 2 (for C2's witness). -/
def distinctC2 : types.Comment :=
  { id := "b", message := "m2", created := 2 }

/-- Gate iterating `distinctC1` before `distinctC2` (for C2's witness). -/
def distinctGate1 : types.Gate :=
  { key := { group := "g", service := "s", environment := "e" }
    state := types.GateState.Open
    comments := [distinctC1, distinctC2]
    last_updated := 5
    display_order := none }

/-- The same comment set as `distinctGate1`, iterated the other way (for
C2's witness). -/
def distinctGate2 : types.Gate :=
  { key := { group := "g", service := "s", environment := "e" }
    state := types.GateState.Open
    comments := [distinctC2, distinctC1]
    last_updated := 5
    display_order := none }

/-- Representation gate with `display_order = some 3` (for C4's witness). -/
def gateOrderSome : types.representation.Gate :=
  { group := "g", service := "s", environment := "e"
    state := types.GateState.Open
    comments := []
    last_updated := 0
    display_order := some 3 }

/-- Representation gate with `display_order = none` (for C4's witness). -/
def gateOrderNone : types.representation.Gate :=
  { group := "g", service := "s", environment := "e"
    state := types.GateState.Open
    comments := []
    last_updated := 0
    display_order := none }

/-- Weekly schedule populating only `monday` (for C5's witness). -/
def mondayOnlyWeek : types.ActiveHoursPerWeek :=
  { monday := some { start := 540, end_ := 1020 }
    tuesday := none
    wednesday := none
    thursday := none
    friday := none
    saturday := none
    sunday := none }

/-- Concrete gate (for C10's witness). -/
def gateA : types.Gate :=
  { key := { group := "g", service := "s", environment := "e1" }
    state := types.GateState.Open
    comments := []
    last_updated := 0
    display_order := none }

/-- Concrete gate agreeing with `gateA` only on `state` (for C10's
witness). -/
def gateB : types.Gate :=
  { key := { group := "g2", service := "s2", environment := "e2" }
    state := types.GateState.Open
    comments := [{ id := "x", message := "mx", created := 9 }]
    last_updated := 77
    display_order := some 4 }

/-- Mapping a domain comment into its representation is injective: all three
fields are copied, none is dropped. -/
theorem commentFromDomain_injective :
    Function.Injective types.representation.Comment.fromDomain := by
  intro a b h
  cases a
  cases b
  simpa [types.representation.Comment.fromDomain,
    types.representation.Comment.mk.injEq, types.Comment.mk.injEq] using h

/-- Membership in an optional field: the pair must carry the field's name and
the field must be present with that value. -/
theorem mem_optField_iff {k : String} {v : Json} {name : String}
    {o : Option Json} :
    (k, v) ∈ optField name o ↔ k = name ∧ o = some v := by
  cases o <;> simp [optField, Prod.ext_iff, eq_comm]

/-- Inserting a comment that is already in the store is a no-op. -/
theorem insertComment_of_mem (g : types.Gate) (c : types.Comment)
    (h : c ∈ g.comments) : types.Gate.insertComment g c = g := by
  simp [types.Gate.insertComment, h]

/-- After an insert, the inserted comment is in the store. -/
theorem mem_insertComment (g : types.Gate) (c : types.Comment) :
    c ∈ (types.Gate.insertComment g c).comments := by
  by_cases h : c ∈ g.comments <;> simp [types.Gate.insertComment, h]

/-- Claim C1: for every domain `Gate`, the comments list of the full
representation produced by `From<types::Gate> for Gate` is sorted ascending
by the `created` timestamp — whenever comment `a` appears before comment `b`
in the output, `a.created ≤ b.created`, for every iteration/storage order of
the underlying comment set. -/
theorem C1_comments_sorted_by_created (g : types.Gate) :
    (types.representation.Gate.fromDomain g).comments.Pairwise
      (fun a b => a.created ≤ b.created) := by
  have h := List.sorted_insertionSort commentOrd
    (g.comments.map types.representation.Comment.fromDomain)
  exact h.imp (fun hab => hab)

/-- Claim C3: mapping a domain `Gate` to its full representation and reading
back `group`, `service`, `environment`, `state` and `last_updated` yields the
source `GateKey`'s three fields and the source gate's `state` and
`last_updated`, unchanged. -/
theorem C3_round_trip_identity (g : types.Gate) :
    (types.representation.Gate.fromDomain g).group = g.key.group
      ∧ (types.representation.Gate.fromDomain g).service = g.key.service
      ∧ (types.representation.Gate.fromDomain g).environment = g.key.environment
      ∧ (types.representation.Gate.fromDomain g).state = g.state
      ∧ (types.representation.Gate.fromDomain g).last_updated = g.last_updated :=
  ⟨rfl, rfl, rfl, rfl, rfl⟩

/-- Claim C6: the state-only representation produced by
`From<types::Gate> for GateStateRep` is exactly the record holding the
domain gate's `state` — its only field — with no comment history or any
other data. -/
theorem C6_state_only_representation (g : types.Gate) :
    types.representation.GateStateRep.fromDomain g = { state := g.state } :=
  rfl

/-- Claim C8: every representation mapping (`Gate`, `GateStateRep`,
`Comment`, `ActiveHoursPerWeek`, `ActiveHours`) is total — for every
well-typed domain input it produces exactly one output, with no error
branch. -/
theorem C8_mappers_total (g : types.Gate) (c : types.Comment)
    (w : types.ActiveHoursPerWeek) (h : types.ActiveHours) :
    (∃! r, types.representation.Gate.fromDomain g = r)
      ∧ (∃! r, types.representation.GateStateRep.fromDomain g = r)
      ∧ (∃! r, types.representation.Comment.fromDomain c = r)
      ∧ (∃! r, types.representation.ActiveHoursPerWeek.fromDomain w = r)
      ∧ (∃! r, types.representation.ActiveHours.fromDomain h = r) :=
  ⟨⟨_, rfl, fun _ hy => hy.symm⟩, ⟨_, rfl, fun _ hy => hy.symm⟩,
    ⟨_, rfl, fun _ hy => hy.symm⟩, ⟨_, rfl, fun _ hy => hy.symm⟩,
    ⟨_, rfl, fun _ hy => hy.symm⟩⟩

/-- Claim C9: the full representation's comments list is exactly the domain
comment set — a permutation of the mapped store, of the same length, with
every comment's multiplicity preserved (nothing dropped, merged or
deduplicated), and each entry's `id`, `message` and `created` copied
unchanged. -/
theorem C9_comments_exact (g : types.Gate) :
    ((types.representation.Gate.fromDomain g).comments).Perm
        (g.comments.map types.representation.Comment.fromDomain)
      ∧ (types.representation.Gate.fromDomain g).comments.length
        = g.comments.length
      ∧ (∀ c : types.Comment,
          ((types.representation.Gate.fromDomain g).comments).count
              (types.representation.Comment.fromDomain c)
            = g.comments.count c)
      ∧ (∀ c : types.Comment,
          types.representation.Comment.fromDomain c
            = { id := c.id, message := c.message, created := c.created }) := by
  have hperm : ((types.representation.Gate.fromDomain g).comments).Perm
      (g.comments.map types.representation.Comment.fromDomain) :=
    List.perm_insertionSort commentOrd _
  refine ⟨hperm, ?_, ?_, fun c => rfl⟩
  · simpa using hperm.length_eq
  · intro c
    rw [hperm.count_eq]
    exact List.count_map_of_injective _ _ commentFromDomain_injective _

/-- Claim C10: the state-only mapping depends only on `state` — two domain
gates with equal `state` map to equal `GateStateRep` values, whatever their
keys, comments, `last_updated` or `display_order`. -/
theorem C10_state_noninterference (g1 g2 : types.Gate)
    (h : g1.state = g2.state) :
    types.representation.GateStateRep.fromDomain g1
      = types.representation.GateStateRep.fromDomain g2 := by
  simp [types.representation.GateStateRep.fromDomain, h]

/-- Witness for C10: two concretely different gates with the same state map
to the same state-only representation. -/
theorem C10_witness :
    gateA ≠ gateB
      ∧ types.representation.GateStateRep.fromDomain gateA
        = types.representation.GateStateRep.fromDomain gateB :=
  ⟨by decide, C10_state_noninterference gateA gateB rfl⟩

/-- Claim C4: when `display_order` is `none` the serialized gate object has
no `display_order` key at all (no null or empty placeholder); when it is
`some n` the object has the key with value `n`. -/
theorem C4_display_order_omission (g : types.representation.Gate) :
    (g.display_order = none →
        ∀ v, ("display_order", v) ∉ types.representation.Gate.fields g)
      ∧ (∀ n : Nat, g.display_order = some n →
        ("display_order", Json.num (n : Int)) ∈ types.representation.Gate.fields g) := by
  constructor
  · intro h v
    simp [types.representation.Gate.fields, optField, h]
  · intro n h
    simp [types.representation.Gate.fields, optField, h]

/-- Witness for C4: the serialized gate with `display_order = some 3`
carries the key with value 3; the one with `display_order = none` carries no
such key. -/
theorem C4_witness :
    ("display_order", Json.num ((3 : Nat) : Int))
        ∈ types.representation.Gate.fields gateOrderSome
      ∧ ("display_order", Json.num ((3 : Nat) : Int))
        ∉ types.representation.Gate.fields gateOrderNone :=
  ⟨(C4_display_order_omission gateOrderSome).2 3 rfl,
    (C4_display_order_omission gateOrderNone).1 rfl (Json.num ((3 : Nat) : Int))⟩

/-- Claim C5: each weekday's optional `ActiveHours` maps field-for-field
(absence to absence, presence with the exact `start`/`end`), and an absent
day is omitted from the serialized weekly object rather than emitted as a
placeholder. -/
theorem C5_active_hours_mapping (w : types.ActiveHoursPerWeek) (d : Weekday) :
    (types.representation.ActiveHoursPerWeek.fromDomain w).day d
        = (types.ActiveHoursPerWeek.day w d).map
            types.representation.ActiveHours.fromDomain
      ∧ (∀ h : types.ActiveHours,
          (types.representation.ActiveHours.fromDomain h).start = h.start ∧
            (types.representation.ActiveHours.fromDomain h).end_ = h.end_)
      ∧ (types.ActiveHoursPerWeek.day w d = none →
          ∀ v, (Weekday.name d, v) ∉
            types.representation.ActiveHoursPerWeek.fields
              (types.representation.ActiveHoursPerWeek.fromDomain w)) := by
  refine ⟨?_, fun h => ⟨rfl, rfl⟩, ?_⟩
  · cases d <;> rfl
  · intro hnone v hmem
    cases d <;>
      simp only [types.ActiveHoursPerWeek.day] at hnone <;>
      simp [types.representation.ActiveHoursPerWeek.fields,
        types.representation.ActiveHoursPerWeek.fromDomain, Weekday.name,
        mem_optField_iff, hnone] at hmem

/-- Witness for C5: with only `monday` populated, the serialized weekly
object has no `tuesday` key, and `monday` is present with the exact window
given. -/
theorem C5_witness :
    (Weekday.name Weekday.tuesday, Json.num 0) ∉
        types.representation.ActiveHoursPerWeek.fields
          (types.representation.ActiveHoursPerWeek.fromDomain mondayOnlyWeek)
      ∧ (types.representation.ActiveHoursPerWeek.fromDomain mondayOnlyWeek).day
          Weekday.monday = some { start := 540, end_ := 1020 } :=
  ⟨(C5_active_hours_mapping mondayOnlyWeek Weekday.tuesday).2.2 rfl (Json.num 0),
    by rw [(C5_active_hours_mapping mondayOnlyWeek Weekday.monday).1]; rfl⟩

/-- Claim C7: inserting a structurally identical comment a second time is a
no-op — the gate, and in particular the size of its comment store, is
unchanged. -/
theorem C7_insert_idempotent (g : types.Gate) (c : types.Comment) :
    types.Gate.insertComment (types.Gate.insertComment g c) c
        = types.Gate.insertComment g c
      ∧ (types.Gate.insertComment (types.Gate.insertComment g c) c).comments.length
        = (types.Gate.insertComment g c).comments.length := by
  have h := insertComment_of_mem (types.Gate.insertComment g c) c
    (mem_insertComment g c)
  exact ⟨h, by rw [h]⟩

/-- Counterexample for C2: two structurally equal domain gates (same key,
state, timestamps, and comment sets equal as sets) whose comment stores
iterate in different orders convert to different full representations — the
two comments tie on `created`, and the stable sort keeps each input's own
iteration order. -/
theorem C2_counterexample :
    types.Gate.SetEq tiedGate1 tiedGate2
      ∧ types.representation.Gate.fromDomain tiedGate1
        ≠ types.representation.Gate.fromDomain tiedGate2 :=
  ⟨⟨rfl, rfl, List.Perm.swap tiedC2 tiedC1 [], rfl, rfl⟩, by decide⟩

/-- Claim C2 (amended): the full-representation mapping is a pure function —
identical gate values (including the comment store's iteration sequence)
always convert to identical output — and whenever the `created` timestamps
are pairwise distinct, any two structurally equal gates (comment sets equal
as sets, whatever their iteration orders) convert to identical output. Only
tied timestamps can make set-equal inputs differ, as the counterexample
shows. -/
theorem C2_deterministic_on_distinct_created (g1 g2 : types.Gate)
    (hset : types.Gate.SetEq g1 g2)
    (hnodup : (g1.comments.map types.Comment.created).Nodup) :
    types.representation.Gate.fromDomain g1
      = types.representation.Gate.fromDomain g2 := by
  obtain ⟨hkey, hstate, hperm, hlast, hdisp⟩ := hset
  have hmap1 : ∀ g : types.Gate,
      (((g.comments.map types.representation.Comment.fromDomain).insertionSort
          commentOrd).map types.representation.Comment.created).Perm
        (g.comments.map types.Comment.created) := by
    intro g
    have h := (List.perm_insertionSort commentOrd
      (g.comments.map types.representation.Comment.fromDomain)).map
      types.representation.Comment.created
    rwa [List.map_map] at h
  have hn1 : (((g1.comments.map types.representation.Comment.fromDomain).insertionSort
      commentOrd).map types.representation.Comment.created).Nodup :=
    ((hmap1 g1).nodup_iff).mpr hnodup
  have hnodup2 : (g2.comments.map types.Comment.created).Nodup :=
    ((hperm.map types.Comment.created).nodup_iff).mp hnodup
  have hn2 : (((g2.comments.map types.representation.Comment.fromDomain).insertionSort
      commentOrd).map types.representation.Comment.created).Nodup :=
    ((hmap1 g2).nodup_iff).mpr hnodup2
  have hp : ((g1.comments.map types.representation.Comment.fromDomain).insertionSort
      commentOrd).Perm
      ((g2.comments.map types.representation.Comment.fromDomain).insertionSort
      commentOrd) :=
    (List.perm_insertionSort commentOrd _).trans
      ((hperm.map types.representation.Comment.fromDomain).trans
        (List.perm_insertionSort commentOrd _).symm)
  have strict : ∀ l : List types.representation.Comment,
      l.Pairwise commentOrd →
      (l.map types.representation.Comment.created).Nodup →
      l.Pairwise (fun a b => a.created < b.created) := by
    intro l hle hnd
    have hne : l.Pairwise (fun a b => a.created ≠ b.created) :=
      List.pairwise_map.mp hnd
    exact (hle.and hne).imp fun hab => lt_of_le_of_ne hab.1 hab.2
  have s1 := strict _ (List.sorted_insertionSort commentOrd
    (g1.comments.map types.representation.Comment.fromDomain)) hn1
  have s2 := strict _ (List.sorted_insertionSort commentOrd
    (g2.comments.map types.representation.Comment.fromDomain)) hn2
  haveI : IsAntisymm types.representation.Comment
      (fun a b => a.created < b.created) :=
    ⟨fun a b h1 h2 => absurd (lt_trans h1 h2) (lt_irrefl _)⟩
  have heq : ((g1.comments.map types.representation.Comment.fromDomain).insertionSort
      commentOrd)
      = ((g2.comments.map types.representation.Comment.fromDomain).insertionSort
      commentOrd) :=
    List.eq_of_perm_of_sorted hp s1 s2
  simp [types.representation.Gate.fromDomain, hkey, hstate, hlast, hdisp, heq]

/-- Witness for C2 (amended): two set-equal gates iterating two
distinct-timestamp comments in opposite orders convert to the same full
representation. -/
theorem C2_witness :
    types.representation.Gate.fromDomain distinctGate1
      = types.representation.Gate.fromDomain distinctGate2 :=
  C2_deterministic_on_distinct_created distinctGate1 distinctGate2
    ⟨rfl, rfl, List.Perm.swap distinctC2 distinctC1 [], rfl, rfl⟩ (by decide)
